import Mathlib

/-!
# Verification of the DeGrooteFregly2016Muscle curve library and state dispatch

Shallow embedding of `OpenSim/Moco/Components/DeGrooteFregly2016Muscle.h`.
The C++ `double` computations are modelled over `ℝ`; the transcendental
functions (`exp`, `log`, `sqrt`, `sinh`) map to their Mathlib counterparts.
Each `calc*` member function becomes a Lean function whose extra leading
arguments are exactly the property/member values the C++ method reads
(`get_active_force_width_scale()`, `m_kT`, ...).  The curve-shape constants
`b11..b43`, `kPE`, `c1..c3`, `d1..d4` are the `constexpr static` members,
copied digit for digit.
-/

namespace DeGrooteFregly2016Muscle

noncomputable section

/-- Parameters for the active fiber force-length curve (first Gaussian-like lobe). -/
def b11 : ℝ := 0.8150671134243542

def b21 : ℝ := 1.055033428970575

def b31 : ℝ := 0.162384573599574

def b41 : ℝ := 0.063303448465465

def b12 : ℝ := 0.433004984392647

def b22 : ℝ := 0.716775413397760

def b32 : ℝ := -0.029947116970696

def b42 : ℝ := 0.200356847296188

def b13 : ℝ := 0.1

def b23 : ℝ := 1.0

def b33 : ℝ := 0.353553390593274

def b43 : ℝ := 0.0

/-- Exponential shape factor of the passive fiber force-length curve. -/
def kPE : ℝ := 4.0

/-- Parameters for the tendon force curve. -/
def c1 : ℝ := 0.200

def c2 : ℝ := 1.0

def c3 : ℝ := 0.200

/-- Parameters for the force-velocity curve. -/
def d1 : ℝ := -0.3211346127989808

def d2 : ℝ := -8.149

def d3 : ℝ := -0.374

def d4 : ℝ := 0.8825327733249912

def m_minNormFiberLength : ℝ := 0.2

def m_maxNormFiberLength : ℝ := 1.8

def m_minNormTendonForce : ℝ := 0.0

def m_maxNormTendonForce : ℝ := 5.0

/-- Embeds `calcGaussianLikeCurve(x, b1, b2, b3, b4)`:
`b1 * exp(-0.5 * square(x - b2) / square(b3 + b4 * x))`. -/
def calcGaussianLikeCurve (x b1 b2 b3 b4 : ℝ) : ℝ :=
  b1 * Real.exp (-0.5 * (x - b2) ^ 2 / (b3 + b4 * x) ^ 2)

/-- Embeds `calcGaussianLikeCurveDerivative(x, b1, b2, b3, b4)`:
`(b1 * exp(-square(b2 - x) / (2 * square(b3 + b4 * x))) * (b2 - x) * (b3 + b2 * b4)) / cube(b3 + b4 * x)`. -/
def calcGaussianLikeCurveDerivative (x b1 b2 b3 b4 : ℝ) : ℝ :=
  b1 * Real.exp (-(b2 - x) ^ 2 / (2 * (b3 + b4 * x) ^ 2)) * (b2 - x) * (b3 + b2 * b4) /
    (b3 + b4 * x) ^ 3

/-- Embeds `calcActiveForceLengthMultiplier(normFiberLength)`; the first argument is the
value of the `active_force_width_scale` property the method reads. -/
def calcActiveForceLengthMultiplier (active_force_width_scale normFiberLength : ℝ) : ℝ :=
  let scale := active_force_width_scale
  let x := (normFiberLength - 1.0) / scale + 1.0
  calcGaussianLikeCurve x b11 b21 b31 b41 + calcGaussianLikeCurve x b12 b22 b32 b42 +
    calcGaussianLikeCurve x b13 b23 b33 b43

/-- Embeds `calcActiveForceLengthMultiplierDerivative(normFiberLength)`. -/
def calcActiveForceLengthMultiplierDerivative (active_force_width_scale normFiberLength : ℝ) :
    ℝ :=
  let scale := active_force_width_scale
  let x := (normFiberLength - 1.0) / scale + 1.0
  (1.0 / scale) *
    (calcGaussianLikeCurveDerivative x b11 b21 b31 b41 +
      calcGaussianLikeCurveDerivative x b12 b22 b32 b42 +
      calcGaussianLikeCurveDerivative x b13 b23 b33 b43)

/-- Embeds `calcForceVelocityMultiplier(normFiberVelocity)` (static). -/
def calcForceVelocityMultiplier (normFiberVelocity : ℝ) : ℝ :=
  let tempV := d2 * normFiberVelocity + d3
  let tempLogArg := tempV + Real.sqrt (tempV ^ 2 + 1.0)
  d1 * Real.log tempLogArg + d4

/-- Embeds `calcForceVelocityInverseCurve(forceVelocityMult)` (static). -/
def calcForceVelocityInverseCurve (forceVelocityMult : ℝ) : ℝ :=
  (Real.sinh (1.0 / d1 * (forceVelocityMult - d4)) - d3) / d2

/-- Embeds `calcPassiveForceMultiplier(normFiberLength)`; the two leading arguments are the
`ignore_passive_fiber_force` and `passive_fiber_strain_at_one_norm_force` properties. -/
def calcPassiveForceMultiplier (ignore_passive_fiber_force : Bool)
    (passive_fiber_strain_at_one_norm_force normFiberLength : ℝ) : ℝ :=
  if ignore_passive_fiber_force then 0
  else
    let e0 := passive_fiber_strain_at_one_norm_force
    let offset := Real.exp (kPE * (m_minNormFiberLength - 1.0) / e0)
    let denom := Real.exp kPE - offset
    (Real.exp (kPE * (normFiberLength - 1.0) / e0) - offset) / denom

/-- Embeds `calcPassiveForceMultiplierDerivative(normFiberLength)`. -/
def calcPassiveForceMultiplierDerivative (ignore_passive_fiber_force : Bool)
    (passive_fiber_strain_at_one_norm_force normFiberLength : ℝ) : ℝ :=
  if ignore_passive_fiber_force then 0
  else
    let e0 := passive_fiber_strain_at_one_norm_force
    let offset := Real.exp (kPE * (m_minNormFiberLength - 1) / e0)
    kPE * Real.exp (kPE * (normFiberLength - 1) / e0) / (e0 * (Real.exp kPE - offset))

/-- Embeds `calcTendonForceMultiplier(normTendonLength)`; the leading argument is the
derived member `m_kT`. -/
def calcTendonForceMultiplier (m_kT normTendonLength : ℝ) : ℝ :=
  c1 * Real.exp (m_kT * (normTendonLength - c2)) - c3

/-- Embeds `calcTendonForceMultiplierDerivative(normTendonLength)`. -/
def calcTendonForceMultiplierDerivative (m_kT normTendonLength : ℝ) : ℝ :=
  c1 * m_kT * Real.exp (m_kT * (normTendonLength - c2))

/-- Embeds `calcTendonForceLengthInverseCurve(normTendonForce)`. -/
def calcTendonForceLengthInverseCurve (m_kT normTendonForce : ℝ) : ℝ :=
  Real.log ((1.0 / c1) * (normTendonForce + c3)) / m_kT + c2

/-- Embeds `calcTendonStiffness(normTendonLength)`.  The C++ method returns the IEEE
sentinel `SimTK::Infinity` in the rigid-tendon branch; we model the codomain as
`EReal` with `⊤` standing for that sentinel. -/
def calcTendonStiffness (ignore_tendon_compliance : Bool)
    (max_isometric_force tendon_slack_length m_kT normTendonLength : ℝ) : EReal :=
  if ignore_tendon_compliance then ⊤
  else
    ((max_isometric_force / tendon_slack_length) *
      calcTendonForceMultiplierDerivative m_kT normTendonLength : ℝ)

/-- The four output reference parameters of `calcFiberForce`. -/
structure FiberForceComponents where
  activeFiberForce : ℝ
  conPassiveFiberForce : ℝ
  nonConPassiveFiberForce : ℝ
  totalFiberForce : ℝ

/-- Embeds `calcFiberForce(activation, activeForceLengthMultiplier, forceVelocityMultiplier,
normPassiveFiberForce, normFiberVelocity, ...)`; the two leading arguments are the
`max_isometric_force` and `fiber_damping` properties the method reads. -/
def calcFiberForce (max_isometric_force fiber_damping : ℝ)
    (activation activeForceLengthMultiplier forceVelocityMultiplier
      normPassiveFiberForce normFiberVelocity : ℝ) : FiberForceComponents :=
  let maxIsometricForce := max_isometric_force
  let activeFiberForce :=
    maxIsometricForce * (activation * activeForceLengthMultiplier * forceVelocityMultiplier)
  let conPassiveFiberForce := maxIsometricForce * normPassiveFiberForce
  let nonConPassiveFiberForce := maxIsometricForce * fiber_damping * normFiberVelocity
  { activeFiberForce := activeFiberForce
    conPassiveFiberForce := conPassiveFiberForce
    nonConPassiveFiberForce := nonConPassiveFiberForce
    totalFiberForce := activeFiberForce + conPassiveFiberForce + nonConPassiveFiberForce }

/-- Modelled from the spec: the host `SimTK::State` slots this muscle reads and
writes.  The framework accessors (`getControl`, `setControls`,
`getStateVariableValue`, `setStateVariableValue`,
`getStateVariableDerivativeValue`, `getDiscreteVariableValue`,
`markCacheVariableInvalid`) live outside the excerpted sources; per the spec the
state container just provides get/set access to the named slots, so each slot is
one record field and each cache is a validity flag. -/
structure MuscleState where
  control : ℝ
  activation_state : ℝ
  normalized_tendon_force_state : ℝ
  normalized_tendon_force_state_deriv : ℝ
  derivative_normalized_tendon_force_discrete : ℝ
  lengthInfo_cache_valid : Bool
  velInfo_cache_valid : Bool
  dynamicsInfo_cache_valid : Bool

/-- Embeds `getActivation(s)`; the leading argument is the `ignore_activation_dynamics`
property. -/
def getActivation (ignore_activation_dynamics : Bool) (s : MuscleState) : ℝ :=
  if ignore_activation_dynamics then s.control else s.activation_state

/-- Embeds `setActivation(s, activation)`. -/
def setActivation (ignore_activation_dynamics : Bool) (s : MuscleState) (activation : ℝ) :
    MuscleState :=
  if ignore_activation_dynamics then { s with control := activation }
  else { s with activation_state := activation }

/-- Embeds `getNormalizedTendonForceDerivative(s)`; the leading arguments are the
`ignore_tendon_compliance` property and the `m_isTendonDynamicsExplicit` member. -/
def getNormalizedTendonForceDerivative
    (ignore_tendon_compliance m_isTendonDynamicsExplicit : Bool) (s : MuscleState) : ℝ :=
  if ignore_tendon_compliance then 0.0
  else if m_isTendonDynamicsExplicit then s.normalized_tendon_force_state_deriv
  else s.derivative_normalized_tendon_force_discrete

/-- Embeds `setNormalizedTendonForce(s, normTendonForce)`: writes the state slot and
invalidates the three info caches only when tendon compliance is modeled. -/
def setNormalizedTendonForce (ignore_tendon_compliance : Bool) (s : MuscleState)
    (normTendonForce : ℝ) : MuscleState :=
  if ignore_tendon_compliance then s
  else
    { s with
      normalized_tendon_force_state := normTendonForce
      lengthInfo_cache_valid := false
      velInfo_cache_valid := false
      dynamicsInfo_cache_valid := false }

end

end DeGrooteFregly2016Muscle

namespace DeGrooteFregly2016Muscle

/-! ## C9: the tendon force-length curve passes through (1, 0) exactly -/

/-- C9: `calcTendonForceMultiplier(1.0)` equals exactly 0 for every tendon
stiffness coefficient `kT`, because `c1 = c3 = 0.2` and `c2 = 1.0` make
`c1·exp(kT·(1−c2)) − c3 = c1 − c3 = 0` — the curve passes through `(1, 0)`
even though the method's documentation comment says it returns a slightly
negative number there. -/
theorem tendonForceMultiplier_at_one_eq_zero (m_kT : ℝ) :
    calcTendonForceMultiplier m_kT 1 = 0 := by
  norm_num [calcTendonForceMultiplier, c1, c2, c3, Real.exp_zero]

/-! ## C3: the tendon force-length inverse curve inverts the forward curve -/

/-- C3: for every nonzero tendon stiffness coefficient `kT` and every normalized
tendon length `x` (in particular throughout the physiological domain),
`calcTendonForceLengthInverseCurve(calcTendonForceMultiplier(x)) = x`. -/
theorem tendonForceLength_roundTrip (m_kT : ℝ) (hkT : m_kT ≠ 0) (x : ℝ) :
    calcTendonForceLengthInverseCurve m_kT (calcTendonForceMultiplier m_kT x) = x := by
  unfold calcTendonForceLengthInverseCurve calcTendonForceMultiplier
  have h1 : (1.0 / c1) * (c1 * Real.exp (m_kT * (x - c2)) - c3 + c3) =
      Real.exp (m_kT * (x - c2)) := by
    rw [c1]; ring_nf
  rw [h1, Real.log_exp, c2]
  field_simp

/-- Witness for C3 at `kT = 35`, `x = 1.03`. -/
theorem tendonForceLength_roundTrip_witness :
    (35 : ℝ) ≠ 0 ∧
      calcTendonForceLengthInverseCurve 35 (calcTendonForceMultiplier 35 1.03) = 1.03 :=
  ⟨by norm_num, tendonForceLength_roundTrip 35 (by norm_num) 1.03⟩

/-! ## Rational enclosures of the exponential at the constants' working points

The calibration claims (`f(-1) = 0`, `f(0) = 1`, `f_L(1) = 1` "within
tolerance") are numeric facts about `exp`/`arsinh` at rational points, settled
here by Taylor partial sums with the explicit remainder of `Real.exp_bound`. -/

theorem exp_taylor_lb (c a : ℝ) (n : ℕ) (hn : 0 < n) (h1 : |c| ≤ 1) (ha : |c| ≤ a) :
    (∑ m ∈ Finset.range n, c ^ m / m.factorial) - a ^ n * ((n + 1) / (n.factorial * n)) ≤
      Real.exp c := by
  have h := Real.exp_bound h1 hn
  rw [abs_le] at h
  have hpow : |c| ^ n ≤ a ^ n := pow_le_pow_left₀ (abs_nonneg c) ha n
  have hK : (0 : ℝ) ≤ (n + 1) / (n.factorial * n) := by positivity
  have h2 : |c| ^ n * ((n + 1) / (n.factorial * n)) ≤ a ^ n * ((n + 1) / (n.factorial * n)) :=
    mul_le_mul_of_nonneg_right hpow hK
  have h3 := h.1
  push_cast at h3 h2 ⊢
  linarith

theorem exp_taylor_ub (c a : ℝ) (n : ℕ) (hn : 0 < n) (h1 : |c| ≤ 1) (ha : |c| ≤ a) :
    Real.exp c ≤
      (∑ m ∈ Finset.range n, c ^ m / m.factorial) + a ^ n * ((n + 1) / (n.factorial * n)) := by
  have h := Real.exp_bound h1 hn
  rw [abs_le] at h
  have hpow : |c| ^ n ≤ a ^ n := pow_le_pow_left₀ (abs_nonneg c) ha n
  have hK : (0 : ℝ) ≤ (n + 1) / (n.factorial * n) := by positivity
  have h2 : |c| ^ n * ((n + 1) / (n.factorial * n)) ≤ a ^ n * ((n + 1) / (n.factorial * n)) :=
    mul_le_mul_of_nonneg_right hpow hK
  have h3 := h.2
  push_cast at h3 h2 ⊢
  linarith

theorem expLB_a2 : (0.6936497699 : ℝ) ≤ Real.exp (-0.3657881) := by
  have h := exp_taylor_lb (-0.3657881) 0.3657881 9 (by norm_num)
    (abs_le.mpr (by constructor <;> norm_num)) (abs_le.mpr (by constructor <;> norm_num))
  refine le_trans ?_ h
  simp only [Finset.sum_range_succ, Finset.sum_range_zero]
  norm_num [Nat.factorial]

theorem expUB_a1 : Real.exp (-0.3657882 : ℝ) ≤ 0.6936497014 := by
  have h := exp_taylor_ub (-0.3657882) 0.3657882 9 (by norm_num)
    (abs_le.mpr (by constructor <;> norm_num)) (abs_le.mpr (by constructor <;> norm_num))
  refine le_trans h ?_
  simp only [Finset.sum_range_succ, Finset.sum_range_zero]
  norm_num [Nat.factorial]

theorem expUB_b1frac : Real.exp (0.7481707 : ℝ) ≤ 2.1131309285 := by
  have h := exp_taylor_ub 0.7481707 0.7481707 12 (by norm_num)
    (abs_le.mpr (by constructor <;> norm_num)) (abs_le.mpr (by constructor <;> norm_num))
  refine le_trans h ?_
  simp only [Finset.sum_range_succ, Finset.sum_range_zero]
  norm_num [Nat.factorial]

theorem expLB_b2frac : (2.1131313509 : ℝ) ≤ Real.exp (0.7481709 : ℝ) := by
  have h := exp_taylor_lb 0.7481709 0.7481709 12 (by norm_num)
    (abs_le.mpr (by constructor <;> norm_num)) (abs_le.mpr (by constructor <;> norm_num))
  refine le_trans ?_ h
  simp only [Finset.sum_range_succ, Finset.sum_range_zero]
  norm_num [Nat.factorial]

theorem expLB_q1pt : (0.9707068417 : ℝ) ≤ Real.exp (-0.02973077 : ℝ) := by
  have h := exp_taylor_lb (-0.02973077) 0.02973077 9 (by norm_num)
    (abs_le.mpr (by constructor <;> norm_num)) (abs_le.mpr (by constructor <;> norm_num))
  refine le_trans ?_ h
  simp only [Finset.sum_range_succ, Finset.sum_range_zero]
  norm_num [Nat.factorial]

theorem expUB_q1pt : Real.exp (-0.02973076 : ℝ) ≤ 0.9707068515 := by
  have h := exp_taylor_ub (-0.02973076) 0.02973076 9 (by norm_num)
    (abs_le.mpr (by constructor <;> norm_num)) (abs_le.mpr (by constructor <;> norm_num))
  refine le_trans h ?_
  simp only [Finset.sum_range_succ, Finset.sum_range_zero]
  norm_num [Nat.factorial]

theorem expLB_q2frac : (0.6830704341 : ℝ) ≤ Real.exp (-0.3811573 : ℝ) := by
  have h := exp_taylor_lb (-0.3811573) 0.3811573 9 (by norm_num)
    (abs_le.mpr (by constructor <;> norm_num)) (abs_le.mpr (by constructor <;> norm_num))
  refine le_trans ?_ h
  simp only [Finset.sum_range_succ, Finset.sum_range_zero]
  norm_num [Nat.factorial]

theorem expUB_q2frac : Real.exp (-0.3811572 : ℝ) ≤ 0.6830705035 := by
  have h := exp_taylor_ub (-0.3811572) 0.3811572 9 (by norm_num)
    (abs_le.mpr (by constructor <;> norm_num)) (abs_le.mpr (by constructor <;> norm_num))
  refine le_trans h ?_
  simp only [Finset.sum_range_succ, Finset.sum_range_zero]
  norm_num [Nat.factorial]

theorem expUB_beta1 : Real.exp (2.7481707 : ℝ) ≤ 15.61404298 := by
  have h1 : (2.7481707 : ℝ) = 1 + 1 + 0.7481707 := by norm_num
  rw [h1, Real.exp_add, Real.exp_add]
  have he := Real.exp_one_lt_d9
  have hp1 := Real.exp_pos 1
  have hp3 := Real.exp_pos (0.7481707 : ℝ)
  have h4 : Real.exp 1 * Real.exp 1 ≤ 2.7182818286 * 2.7182818286 :=
    mul_le_mul he.le he.le hp1.le (by norm_num)
  have h5 : Real.exp 1 * Real.exp 1 * Real.exp 0.7481707 ≤
      2.7182818286 * 2.7182818286 * 2.1131309285 :=
    mul_le_mul h4 expUB_b1frac hp3.le (by norm_num)
  refine le_trans h5 (by norm_num)

theorem expLB_beta2 : (15.61404609 : ℝ) ≤ Real.exp (2.7481709 : ℝ) := by
  have h1 : (2.7481709 : ℝ) = 1 + 1 + 0.7481709 := by norm_num
  rw [h1, Real.exp_add, Real.exp_add]
  have he := Real.exp_one_gt_d9
  have h4 : (2.7182818283 : ℝ) * 2.7182818283 ≤ Real.exp 1 * Real.exp 1 :=
    mul_le_mul he.le he.le (by norm_num) (Real.exp_pos 1).le
  have h5 : (2.7182818283 : ℝ) * 2.7182818283 * 2.1131313509 ≤
      Real.exp 1 * Real.exp 1 * Real.exp 0.7481709 :=
    mul_le_mul h4 expLB_b2frac (by norm_num) (by positivity)
  refine le_trans (by norm_num) h5

theorem sinh_le_of_exp_le {x b : ℝ} (h : Real.exp x ≤ b) : Real.sinh x ≤ (b - 1 / b) / 2 := by
  have hE := Real.exp_pos x
  rw [Real.sinh_eq, Real.exp_neg]
  have h1 : 1 / b ≤ (Real.exp x)⁻¹ := by
    rw [one_div]
    exact inv_le_inv_of_le hE h
  linarith

theorem le_sinh_of_le_exp {x a : ℝ} (ha : 0 < a) (h : a ≤ Real.exp x) :
    (a - 1 / a) / 2 ≤ Real.sinh x := by
  have hE := Real.exp_pos x
  rw [Real.sinh_eq, Real.exp_neg]
  have h1 : (Real.exp x)⁻¹ ≤ 1 / a := by
    rw [one_div]
    exact inv_le_inv_of_le ha h
  linarith

theorem arsinh_m0374_bounds :
    (-0.3657882 : ℝ) < Real.arsinh (-0.374) ∧ Real.arsinh (-0.374) < -0.3657881 := by
  constructor
  · rw [← Real.sinh_lt_sinh, Real.sinh_arsinh]
    refine lt_of_le_of_lt (sinh_le_of_exp_le expUB_a1) (by norm_num)
  · rw [← Real.sinh_lt_sinh, Real.sinh_arsinh]
    refine lt_of_lt_of_le (by norm_num) (le_sinh_of_le_exp (by norm_num) expLB_a2)

theorem arsinh_7775_bounds :
    (2.7481707 : ℝ) < Real.arsinh 7.775 ∧ Real.arsinh 7.775 < 2.7481709 := by
  constructor
  · rw [← Real.sinh_lt_sinh, Real.sinh_arsinh]
    refine lt_of_le_of_lt (sinh_le_of_exp_le expUB_beta1) (by norm_num)
  · rw [← Real.sinh_lt_sinh, Real.sinh_arsinh]
    refine lt_of_lt_of_le (by norm_num) (le_sinh_of_le_exp (by norm_num) expLB_beta2)

/-! ## C1: force-velocity round trip and endpoint calibration -/

theorem log_add_sqrt (t : ℝ) : Real.log (t + Real.sqrt (t ^ 2 + 1.0)) = Real.arsinh t := by
  unfold Real.arsinh
  ring_nf

theorem calcForceVelocityMultiplier_eq (v : ℝ) :
    calcForceVelocityMultiplier v = d1 * Real.arsinh (d2 * v + d3) + d4 := by
  simp only [calcForceVelocityMultiplier]
  rw [log_add_sqrt]

theorem calcFV_zero_close : |calcForceVelocityMultiplier 0 - 1| ≤ 1 / 10 ^ 6 := by
  rw [calcForceVelocityMultiplier_eq]
  have h0 : d2 * 0 + d3 = (-0.374 : ℝ) := by simp only [d2, d3]; norm_num
  rw [h0]
  have hb := arsinh_m0374_bounds
  simp only [d1, d4]
  rw [abs_le]
  constructor <;> linarith [hb.1, hb.2]

theorem calcFV_neg_one_close : |calcForceVelocityMultiplier (-1)| ≤ 1 / 10 ^ 6 := by
  rw [calcForceVelocityMultiplier_eq]
  have h0 : d2 * (-1) + d3 = (7.775 : ℝ) := by simp only [d2, d3]; norm_num
  rw [h0]
  have hb := arsinh_7775_bounds
  simp only [d1, d4]
  rw [abs_le]
  constructor <;> linarith [hb.1, hb.2]

/-- C1: for every normalized fiber velocity `v ∈ [-1, 1]`,
`calcForceVelocityInverseCurve(calcForceVelocityMultiplier(v)) = v` exactly, and
with the fixed constants `d1..d4` the multiplier satisfies
`|calcForceVelocityMultiplier(-1)| ≤ 10⁻⁶` and
`|calcForceVelocityMultiplier(0) - 1| ≤ 10⁻⁶` (the claimed values `0` and `1`
within tolerance). -/
theorem forceVelocity_roundTrip_and_endpoints (v : ℝ) (h1 : -1 ≤ v) (h2 : v ≤ 1) :
    calcForceVelocityInverseCurve (calcForceVelocityMultiplier v) = v ∧
      |calcForceVelocityMultiplier (-1)| ≤ 1 / 10 ^ 6 ∧
      |calcForceVelocityMultiplier 0 - 1| ≤ 1 / 10 ^ 6 := by
  refine ⟨?_, calcFV_neg_one_close, calcFV_zero_close⟩
  rw [calcForceVelocityMultiplier_eq]
  simp only [calcForceVelocityInverseCurve]
  have hd1 : d1 ≠ 0 := by simp only [d1]; norm_num
  have hd2 : d2 ≠ 0 := by simp only [d2]; norm_num
  have h3 : 1.0 / d1 * (d1 * Real.arsinh (d2 * v + d3) + d4 - d4) =
      Real.arsinh (d2 * v + d3) := by
    field_simp
    ring
  rw [h3, Real.sinh_arsinh, add_sub_cancel_right]
  exact mul_div_cancel_left₀ v hd2

/-- Witness for C1 at `v = 0`. -/
theorem forceVelocity_roundTrip_witness :
    ((-1 : ℝ) ≤ 0 ∧ (0 : ℝ) ≤ 1) ∧
      (calcForceVelocityInverseCurve (calcForceVelocityMultiplier 0) = 0 ∧
        |calcForceVelocityMultiplier (-1)| ≤ 1 / 10 ^ 6 ∧
        |calcForceVelocityMultiplier 0 - 1| ≤ 1 / 10 ^ 6) :=
  ⟨⟨by norm_num, by norm_num⟩,
    forceVelocity_roundTrip_and_endpoints 0 (by norm_num) (by norm_num)⟩

/-! ## C2: the active force-length curve at normalized fiber length 1

For every width scale `s` the pre-shifted argument `(1 - 1)/s + 1` equals 1, so
the value at `x = 1` is scale-independent and equals `1` within `10⁻⁶`.  The
derivative at `x = 1`, however, is NOT zero: it is `≈ 0.1602/s` (the curve's
true stationary point sits slightly left of `x = 1`; only the value `1` at
`x = 1` was calibrated via `b11`). -/

theorem expLB_q2 : (0.2512875695 : ℝ) ≤ Real.exp (-1.3811573 : ℝ) := by
  have h1 : (-1.3811573 : ℝ) = -1 + -0.3811573 := by norm_num
  rw [h1, Real.exp_add]
  have he := Real.exp_neg_one_gt_d9
  calc (0.2512875695 : ℝ) ≤ 0.36787944116 * 0.6830704341 := by norm_num
    _ ≤ Real.exp (-1) * Real.exp (-0.3811573) :=
        mul_le_mul he.le expLB_q2frac (by norm_num) (Real.exp_pos _).le

theorem expUB_q2 : Real.exp (-1.3811572 : ℝ) ≤ 0.2512875952 := by
  have h1 : (-1.3811572 : ℝ) = -1 + -0.3811572 := by norm_num
  rw [h1, Real.exp_add]
  have he := Real.exp_neg_one_lt_d9
  calc Real.exp (-1) * Real.exp (-0.3811572) ≤ 0.3678794412 * 0.6830705035 :=
        mul_le_mul he.le expUB_q2frac (Real.exp_pos _).le (by norm_num)
    _ ≤ 0.2512875952 := by norm_num

theorem calcAFL_at_one (s : ℝ) :
    calcActiveForceLengthMultiplier s 1 =
      calcGaussianLikeCurve 1 b11 b21 b31 b41 + calcGaussianLikeCurve 1 b12 b22 b32 b42 +
        calcGaussianLikeCurve 1 b13 b23 b33 b43 := by
  simp only [calcActiveForceLengthMultiplier]
  norm_num

theorem calcAFLD_at_one (s : ℝ) :
    calcActiveForceLengthMultiplierDerivative s 1 =
      1.0 / s *
        (calcGaussianLikeCurveDerivative 1 b11 b21 b31 b41 +
          calcGaussianLikeCurveDerivative 1 b12 b22 b32 b42 +
          calcGaussianLikeCurveDerivative 1 b13 b23 b33 b43) := by
  simp only [calcActiveForceLengthMultiplierDerivative]
  norm_num

theorem lobe1_value_lb : (0.7911912234 : ℝ) ≤ calcGaussianLikeCurve 1 b11 b21 b31 b41 := by
  simp only [calcGaussianLikeCurve, b11, b21, b31, b41]
  refine le_trans (by norm_num) (mul_le_mul_of_nonneg_left
    (le_trans expLB_q1pt (Real.exp_le_exp.mpr (by norm_num))) (by norm_num))

theorem lobe1_value_ub : calcGaussianLikeCurve 1 b11 b21 b31 b41 ≤ 0.7911912315 := by
  simp only [calcGaussianLikeCurve, b11, b21, b31, b41]
  refine le_trans (mul_le_mul_of_nonneg_left
    (le_trans (Real.exp_le_exp.mpr (by norm_num)) expUB_q1pt) (by norm_num)) (by norm_num)

theorem lobe2_value_lb : (0.1088087701 : ℝ) ≤ calcGaussianLikeCurve 1 b12 b22 b32 b42 := by
  simp only [calcGaussianLikeCurve, b12, b22, b32, b42]
  refine le_trans (by norm_num) (mul_le_mul_of_nonneg_left
    (le_trans expLB_q2 (Real.exp_le_exp.mpr (by norm_num))) (by norm_num))

theorem lobe2_value_ub : calcGaussianLikeCurve 1 b12 b22 b32 b42 ≤ 0.1088087813 := by
  simp only [calcGaussianLikeCurve, b12, b22, b32, b42]
  refine le_trans (mul_le_mul_of_nonneg_left
    (le_trans (Real.exp_le_exp.mpr (by norm_num)) expUB_q2) (by norm_num)) (by norm_num)

theorem lobe3_value_eq : calcGaussianLikeCurve 1 b13 b23 b33 b43 = 0.1 := by
  simp only [calcGaussianLikeCurve, b13, b23, b33, b43]
  norm_num

theorem calcAFL_one_close (s : ℝ) :
    |calcActiveForceLengthMultiplier s 1 - 1| ≤ 1 / 10 ^ 6 := by
  rw [calcAFL_at_one, lobe3_value_eq]
  have h1 := lobe1_value_lb
  have h2 := lobe1_value_ub
  have h3 := lobe2_value_lb
  have h4 := lobe2_value_ub
  rw [abs_le]
  constructor <;> linarith

theorem calcGaussianLikeCurveDerivative_coeff_form (x b1 b2 b3 b4 : ℝ) :
    calcGaussianLikeCurveDerivative x b1 b2 b3 b4 =
      b1 * (b2 - x) * (b3 + b2 * b4) / (b3 + b4 * x) ^ 3 *
        Real.exp (-(b2 - x) ^ 2 / (2 * (b3 + b4 * x) ^ 2)) := by
  simp only [calcGaussianLikeCurveDerivative]
  ring

theorem lobe1_deriv_lb : (0.86804798 : ℝ) ≤ calcGaussianLikeCurveDerivative 1 b11 b21 b31 b41 := by
  rw [calcGaussianLikeCurveDerivative_coeff_form]
  simp only [b11, b21, b31, b41]
  refine le_trans (by norm_num) (mul_le_mul_of_nonneg_left
    (le_trans expLB_q1pt (Real.exp_le_exp.mpr (by norm_num))) (by norm_num))

theorem lobe1_deriv_ub : calcGaussianLikeCurveDerivative 1 b11 b21 b31 b41 ≤ 0.86804800 := by
  rw [calcGaussianLikeCurveDerivative_coeff_form]
  simp only [b11, b21, b31, b41]
  refine le_trans (mul_le_mul_of_nonneg_left
    (le_trans (Real.exp_le_exp.mpr (by norm_num)) expUB_q1pt) (by norm_num)) (by norm_num)

theorem lobe2_deriv_lb :
    (-0.70783771 : ℝ) ≤ calcGaussianLikeCurveDerivative 1 b12 b22 b32 b42 := by
  rw [calcGaussianLikeCurveDerivative_coeff_form]
  simp only [b12, b22, b32, b42]
  refine le_trans (by norm_num) (mul_le_mul_of_nonpos_left
    (le_trans (Real.exp_le_exp.mpr (by norm_num)) expUB_q2) (by norm_num))

theorem lobe2_deriv_ub :
    calcGaussianLikeCurveDerivative 1 b12 b22 b32 b42 ≤ -0.70783762 := by
  rw [calcGaussianLikeCurveDerivative_coeff_form]
  simp only [b12, b22, b32, b42]
  refine le_trans (mul_le_mul_of_nonpos_left
    (le_trans expLB_q2 (Real.exp_le_exp.mpr (by norm_num))) (by norm_num)) (by norm_num)

theorem lobe3_deriv_eq : calcGaussianLikeCurveDerivative 1 b13 b23 b33 b43 = 0 := by
  simp only [calcGaussianLikeCurveDerivative, b13, b23, b33, b43]
  norm_num

/-- C2 counterexample: at the default width scale `s = 1`, the derivative of
the active force-length curve at normalized fiber length `1.0` is NOT `0`; it
exceeds `0.1` (its value is `≈ 0.16021`).  So the curve's peak (zero-derivative
point) is not at `x = 1.0`. -/
theorem activeForceLength_deriv_at_one_counterexample :
    calcActiveForceLengthMultiplierDerivative 1 1 ≠ 0 ∧
      1 / 10 < calcActiveForceLengthMultiplierDerivative 1 1 := by
  have h := calcAFLD_at_one 1
  rw [lobe3_deriv_eq] at h
  have h1 := lobe1_deriv_lb
  have h3 := lobe2_deriv_lb
  have hgt : 1 / 10 < calcActiveForceLengthMultiplierDerivative 1 1 := by
    rw [h]
    have : (1.0 : ℝ) / 1 = 1 := by norm_num
    rw [this, one_mul]
    linarith
  exact ⟨ne_of_gt (lt_trans (by norm_num) hgt), hgt⟩

/-- C2 (amended): for every width-scale factor `s > 0`, the value of
`calcActiveForceLengthMultiplier` at normalized fiber length `1.0` is
independent of `s` and equals `1.0` within `10⁻⁶`; however,
`calcActiveForceLengthMultiplierDerivative` at `1.0` is not `0` but the fixed
nonzero constant `calcActiveForceLengthMultiplierDerivative(1,1) ≈ 0.16021`
divided by `s` (see the counterexample). -/
theorem activeForceLength_value_at_one (s : ℝ) (hs : 0 < s) :
    calcActiveForceLengthMultiplier s 1 = calcActiveForceLengthMultiplier 1 1 ∧
      |calcActiveForceLengthMultiplier s 1 - 1| ≤ 1 / 10 ^ 6 ∧
      calcActiveForceLengthMultiplierDerivative s 1 =
        1 / s * calcActiveForceLengthMultiplierDerivative 1 1 := by
  refine ⟨by rw [calcAFL_at_one, calcAFL_at_one], calcAFL_one_close s, ?_⟩
  rw [calcAFLD_at_one, calcAFLD_at_one]
  norm_num

/-- Witness for the amended C2 at `s = 2`. -/
theorem activeForceLength_value_at_one_witness :
    (0 : ℝ) < 2 ∧
      (calcActiveForceLengthMultiplier 2 1 = calcActiveForceLengthMultiplier 1 1 ∧
        |calcActiveForceLengthMultiplier 2 1 - 1| ≤ 1 / 10 ^ 6 ∧
        calcActiveForceLengthMultiplierDerivative 2 1 =
          1 / 2 * calcActiveForceLengthMultiplierDerivative 1 1) :=
  ⟨by norm_num, activeForceLength_value_at_one 2 (by norm_num)⟩

/-! ## C4: the passive force-length curve -/

/-- C4: with passive fiber force enabled and any strain parameter `e0 > 0`,
`calcPassiveForceMultiplier` is `0` at the minimum normalized fiber length
`x = 0.2` and strictly increasing for `x ≥ 0.2`; with
`ignore_passive_fiber_force` set it is identically `0`. -/
theorem passiveForceMultiplier_props (e0 : ℝ) (he0 : 0 < e0) :
    calcPassiveForceMultiplier false e0 m_minNormFiberLength = 0 ∧
      (∀ x y : ℝ, m_minNormFiberLength ≤ x → x < y →
        calcPassiveForceMultiplier false e0 x < calcPassiveForceMultiplier false e0 y) ∧
      ∀ x : ℝ, calcPassiveForceMultiplier true e0 x = 0 := by
  have hden : 0 < Real.exp kPE - Real.exp (kPE * (m_minNormFiberLength - 1.0) / e0) := by
    rw [sub_pos, Real.exp_lt_exp]
    simp only [kPE, m_minNormFiberLength]
    have h : (4 : ℝ) * (0.2 - 1.0) / e0 < 0 :=
      div_neg_of_neg_of_pos (by norm_num) he0
    linarith
  refine ⟨?_, ?_, ?_⟩
  · simp [calcPassiveForceMultiplier]
  · intro x y hx hxy
    simp only [calcPassiveForceMultiplier, Bool.false_eq_true, if_false]
    rw [div_lt_div_right hden]
    have harg : kPE * (x - 1.0) / e0 < kPE * (y - 1.0) / e0 := by
      rw [div_lt_div_right he0]
      simp only [kPE]
      linarith
    exact sub_lt_sub_right (Real.exp_lt_exp.mpr harg) _
  · intro x
    simp [calcPassiveForceMultiplier]

/-- Witness for C4 at `e0 = 0.6`: zero at `x = 0.2`, strictly increasing from
`x = 1` to `x = 1.5`, and identically zero when disabled (checked at `x = 3`). -/
theorem passiveForceMultiplier_props_witness :
    (0 : ℝ) < 0.6 ∧
      calcPassiveForceMultiplier false 0.6 m_minNormFiberLength = 0 ∧
      calcPassiveForceMultiplier false 0.6 1 < calcPassiveForceMultiplier false 0.6 1.5 ∧
      calcPassiveForceMultiplier true 0.6 3 = 0 := by
  have h := passiveForceMultiplier_props 0.6 (by norm_num)
  exact ⟨by norm_num, h.1,
    h.2.1 1 1.5 (by simp only [m_minNormFiberLength]; norm_num) (by norm_num), h.2.2 3⟩

/-! ## C6: rigid-tendon configuration -/

/-- C6: with `ignore_tendon_compliance` set, `getNormalizedTendonForceDerivative`
returns `0` for every state (in both explicit and implicit tendon-dynamics
modes), and `calcTendonStiffness` returns the infinite sentinel
(`SimTK::Infinity`, modelled as `⊤ : EReal`) for every normalized tendon length
and every parameter value. -/
theorem rigidTendon_derivZero_and_stiffnessInfinite (expl : Bool) (s : MuscleState)
    (Fmax lTs kT x : ℝ) :
    getNormalizedTendonForceDerivative true expl s = 0 ∧
      calcTendonStiffness true Fmax lTs kT x = ⊤ :=
  ⟨by norm_num [getNormalizedTendonForceDerivative], by simp [calcTendonStiffness]⟩

/-! ## C7: activation accessors with activation dynamics disabled -/

/-- C7: with `ignore_activation_dynamics` set, `setActivation` writes the value
directly to the control slot (touching nothing else, in particular not the
activation state variable), `getActivation` reads the control slot directly, and
therefore `getActivation` after `setActivation(s, a)` returns `a`. -/
theorem activationDynamicsOff_identity (s : MuscleState) (a : ℝ) :
    getActivation true (setActivation true s a) = a ∧
      setActivation true s a = { s with control := a } ∧
      (setActivation true s a).activation_state = s.activation_state ∧
      getActivation true s = s.control :=
  ⟨rfl, rfl, rfl, rfl⟩

/-! ## C10: `setNormalizedTendonForce` frame conditions -/

/-- C10: with `ignore_tendon_compliance` set, `setNormalizedTendonForce` leaves
the state entirely unchanged for every value (no state write, no cache
invalidation); with tendon compliance modeled it writes the
normalized-tendon-force state slot (and invalidates the three info caches). -/
theorem setNormalizedTendonForce_frame (s : MuscleState) (f : ℝ) :
    setNormalizedTendonForce true s f = s ∧
      (setNormalizedTendonForce false s f).normalized_tendon_force_state = f ∧
      (setNormalizedTendonForce false s f).lengthInfo_cache_valid = false ∧
      (setNormalizedTendonForce false s f).velInfo_cache_valid = false ∧
      (setNormalizedTendonForce false s f).dynamicsInfo_cache_valid = false :=
  ⟨rfl, rfl, rfl, rfl, rfl⟩

/-! ## C5: the closed-form derivative of the active force-length curve

Away from the lobes' denominator zeros, `calcActiveForceLengthMultiplierDerivative`
is the exact mathematical derivative of `calcActiveForceLengthMultiplier`
(chain rule through the width pre-shift).  At a denominator zero — e.g. the
shifted argument `-b32/b42 ≈ 0.1495` of the second lobe — the curve formula is
singular and not differentiable, so the "for every `x`" form of the claim
fails there. -/

theorem calcGaussianLikeCurve_hasDerivAt (b1 b2 b3 b4 y : ℝ) (hw : b3 + b4 * y ≠ 0) :
    HasDerivAt (fun t => calcGaussianLikeCurve t b1 b2 b3 b4)
      (calcGaussianLikeCurveDerivative y b1 b2 b3 b4) y := by
  have hnum : HasDerivAt (fun t : ℝ => -0.5 * (t - b2) ^ 2) (-0.5 * (2 * (y - b2))) y := by
    have h1 : HasDerivAt (fun t : ℝ => t - b2) 1 y := (hasDerivAt_id y).sub_const b2
    have h2 := h1.pow 2
    have h3 := h2.const_mul (-0.5 : ℝ)
    convert h3 using 1
    push_cast
    ring
  have hden : HasDerivAt (fun t : ℝ => (b3 + b4 * t) ^ 2) (2 * (b3 + b4 * y) * b4) y := by
    have h1 : HasDerivAt (fun t : ℝ => b3 + b4 * t) b4 y := by
      simpa using ((hasDerivAt_id y).const_mul b4).const_add b3
    have h2 := h1.pow 2
    convert h2 using 1
    push_cast
    ring
  have hw2 : (b3 + b4 * y) ^ 2 ≠ 0 := pow_ne_zero 2 hw
  have hquot := hnum.div hden hw2
  have hexp := hquot.exp
  have hfull := hexp.const_mul b1
  have hw2pos : (0 : ℝ) < (b3 + b4 * y) ^ 2 :=
    lt_of_le_of_ne (sq_nonneg _) (Ne.symm (pow_ne_zero 2 hw))
  have harg : -(b2 - y) ^ 2 / (2 * (b3 + b4 * y) ^ 2) =
      -0.5 * (y - b2) ^ 2 / (b3 + b4 * y) ^ 2 := by
    rw [div_eq_div_iff (by linarith) hw2pos.ne']
    ring
  unfold calcGaussianLikeCurve calcGaussianLikeCurveDerivative
  rw [harg]
  convert hfull using 1
  field_simp
  ring

/-- C5 (amended): for every width-scale factor `s > 0` and every normalized
fiber length `x` at which the pre-shifted argument `y = (x-1)/s + 1` makes all
three lobe denominators `b3ⱼ + b4ⱼ·y` nonzero (the third is the constant
`b33 ≠ 0`), `calcActiveForceLengthMultiplierDerivative` is the exact
mathematical derivative of `calcActiveForceLengthMultiplier`: the sum of the
three Gaussian-like lobe derivatives at `y`, times the chain-rule factor
`1/s`. -/
theorem activeForceLength_derivative_exact (s x : ℝ) (_hs : 0 < s)
    (h1 : b31 + b41 * ((x - 1.0) / s + 1.0) ≠ 0)
    (h2 : b32 + b42 * ((x - 1.0) / s + 1.0) ≠ 0) :
    HasDerivAt (fun t => calcActiveForceLengthMultiplier s t)
      (calcActiveForceLengthMultiplierDerivative s x) x := by
  have hy : HasDerivAt (fun t : ℝ => (t - 1.0) / s + 1.0) (1 / s) x := by
    have h := ((hasDerivAt_id x).sub_const (1.0 : ℝ)).div_const s
    simpa using h.add_const (1.0 : ℝ)
  set y := (x - 1.0) / s + 1.0 with hydef
  have h3 : b33 + b43 * y ≠ 0 := by
    simp only [b33, b43]
    norm_num
  have g1 := calcGaussianLikeCurve_hasDerivAt b11 b21 b31 b41 y h1
  have g2 := calcGaussianLikeCurve_hasDerivAt b12 b22 b32 b42 y h2
  have g3 := calcGaussianLikeCurve_hasDerivAt b13 b23 b33 b43 y h3
  have gsum := (g1.add g2).add g3
  have hcomp := HasDerivAt.comp_of_eq x gsum hy hydef
  convert hcomp using 1
  simp only [calcActiveForceLengthMultiplierDerivative]
  rw [← hydef]
  ring

/-- Witness for the amended C5 at `s = 1`, `x = 1`. -/
theorem activeForceLength_derivative_exact_witness :
    ((0 : ℝ) < 1 ∧ b31 + b41 * (((1 : ℝ) - 1.0) / 1 + 1.0) ≠ 0 ∧
        b32 + b42 * (((1 : ℝ) - 1.0) / 1 + 1.0) ≠ 0) ∧
      HasDerivAt (fun t => calcActiveForceLengthMultiplier 1 t)
        (calcActiveForceLengthMultiplierDerivative 1 1) 1 :=
  ⟨⟨by norm_num, by simp only [b31, b41]; norm_num, by simp only [b32, b42]; norm_num⟩,
    activeForceLength_derivative_exact 1 1 (by norm_num)
      (by simp only [b31, b41]; norm_num) (by simp only [b32, b42]; norm_num)⟩

/-- C5 counterexample: at `s = 1` and the normalized fiber length
`x₀ = -b32/b42 = 29947116970696/200356847296188 ≈ 0.1495` — the zero of the
second lobe's denominator — `calcActiveForceLengthMultiplier` is not
differentiable (its formula has a jump there), so the derivative function does
not equal the exact mathematical derivative at every point. -/
theorem activeForceLength_derivative_exact_counterexample :
    ¬ HasDerivAt (fun t => calcActiveForceLengthMultiplier 1 t)
      (calcActiveForceLengthMultiplierDerivative 1 (29947116970696 / 200356847296188))
      (29947116970696 / 200356847296188) := by
  intro hcontra
  set x0 : ℝ := 29947116970696 / 200356847296188 with hx0
  have hcont : ContinuousAt (fun t => calcActiveForceLengthMultiplier 1 t) x0 :=
    hcontra.continuousAt
  have hfun : (fun t : ℝ => calcActiveForceLengthMultiplier 1 t) =
      fun t => calcGaussianLikeCurve t b11 b21 b31 b41 + calcGaussianLikeCurve t b12 b22 b32 b42 +
        calcGaussianLikeCurve t b13 b23 b33 b43 := by
    funext t
    simp only [calcActiveForceLengthMultiplier]
    norm_num
  rw [hfun] at hcont
  have hc1 : ContinuousAt (fun t : ℝ => calcGaussianLikeCurve t b11 b21 b31 b41) x0 := by
    simp only [calcGaussianLikeCurve]
    apply ContinuousAt.mul continuousAt_const
    apply ContinuousAt.rexp
    apply ContinuousAt.div
    · fun_prop
    · fun_prop
    · simp only [b31, b41, hx0]
      norm_num
  have hc3 : ContinuousAt (fun t : ℝ => calcGaussianLikeCurve t b13 b23 b33 b43) x0 := by
    simp only [calcGaussianLikeCurve]
    apply ContinuousAt.mul continuousAt_const
    apply ContinuousAt.rexp
    apply ContinuousAt.div
    · fun_prop
    · fun_prop
    · simp only [b33, b43, hx0]
      norm_num
  have hc2 : ContinuousAt (fun t : ℝ => calcGaussianLikeCurve t b12 b22 b32 b42) x0 := by
    have h := (hcont.sub hc1).sub hc3
    have heq : (fun t : ℝ =>
        calcGaussianLikeCurve t b11 b21 b31 b41 + calcGaussianLikeCurve t b12 b22 b32 b42 +
          calcGaussianLikeCurve t b13 b23 b33 b43 -
          calcGaussianLikeCurve t b11 b21 b31 b41 - calcGaussianLikeCurve t b13 b23 b33 b43) =
        fun t : ℝ => calcGaussianLikeCurve t b12 b22 b32 b42 := by
      funext t
      ring
    rwa [heq] at h
  rw [Metric.continuousAt_iff] at hc2
  obtain ⟨δ, hδpos, hball⟩ := hc2 0.1 (by norm_num)
  set t0 : ℝ := min (δ / 2) (1 / 100) with ht0def
  have ht0pos : 0 < t0 := lt_min (by linarith) (by norm_num)
  have ht0le : t0 ≤ 1 / 100 := min_le_right _ _
  have hdist : dist (x0 + t0) x0 < δ := by
    rw [Real.dist_eq]
    have h : |x0 + t0 - x0| = t0 := by
      rw [add_sub_cancel_left, abs_of_pos ht0pos]
    rw [h]
    calc t0 ≤ δ / 2 := min_le_left _ _
      _ < δ := by linarith
  have hsmall := hball hdist
  have hLx0 : calcGaussianLikeCurve x0 b12 b22 b32 b42 = b12 := by
    simp only [calcGaussianLikeCurve, b12, b22, b32, b42, hx0]
    norm_num
  have hw : b32 + b42 * (x0 + t0) = b42 * t0 := by
    simp only [b32, b42, hx0]
    ring_nf
  have hwpos : (0 : ℝ) < (b42 * t0) ^ 2 := by
    have h : b42 * t0 > 0 := by
      apply mul_pos _ ht0pos
      simp only [b42]
      norm_num
    positivity
  have hu : x0 + t0 - b22 ≤ -0.55 := by
    simp only [b22, hx0]
    norm_num
    linarith
  have hu2 : (0.3 : ℝ) ≤ (x0 + t0 - b22) ^ 2 := by
    nlinarith [hu]
  have hwsq : (b42 * t0) ^ 2 ≤ 0.000005 := by
    have hb42 : (0 : ℝ) < b42 := by simp only [b42]; norm_num
    have hb42' : b42 ≤ 0.21 := by simp only [b42]; norm_num
    have hprod : b42 * t0 ≤ 0.0021 :=
      le_trans (mul_le_mul hb42' ht0le ht0pos.le (by norm_num)) (by norm_num)
    nlinarith [hprod, mul_pos hb42 ht0pos]
  have hE : -0.5 * (x0 + t0 - b22) ^ 2 / (b32 + b42 * (x0 + t0)) ^ 2 ≤ -1 := by
    rw [hw, div_le_iff₀ hwpos]
    nlinarith [hu2, hwsq]
  have hval : calcGaussianLikeCurve (x0 + t0) b12 b22 b32 b42 ≤ b12 * 0.3678794412 := by
    simp only [calcGaussianLikeCurve]
    apply mul_le_mul_of_nonneg_left _ (by simp only [b12]; norm_num)
    calc Real.exp (-0.5 * (x0 + t0 - b22) ^ 2 / (b32 + b42 * (x0 + t0)) ^ 2) ≤ Real.exp (-1) :=
          Real.exp_le_exp.mpr hE
      _ ≤ 0.3678794412 := Real.exp_neg_one_lt_d9.le
  rw [Real.dist_eq, hLx0] at hsmall
  have habs := abs_lt.mp hsmall
  have hb12 : (0.433 : ℝ) ≤ b12 := by simp only [b12]; norm_num
  have hfin : calcGaussianLikeCurve (x0 + t0) b12 b22 b32 b42 - b12 ≤ -0.27 := by
    have h : b12 * 0.3678794412 ≤ 0.16 := by simp only [b12]; norm_num
    linarith
  linarith [habs.1]

/-! ## C8: isometric fiber force at optimal fiber length -/

/-- C8: in the scenario activation `= 1·0`, normalized fiber length `= 1·0`
(fiber at optimal length), normalized fiber velocity `= 0`, `calcFiberForce`
yields zero damping contribution, total equals active plus conservative
passive, the active part is `Fmax · (1 · aFL(1) · FV(0))`, the conservative
passive part is `Fmax · calcPassiveForceMultiplier(1·0)`, and — since
`aFL(1)` and `FV(0)` are each `1` within `10⁻⁶` — the total equals
`Fmax · 1·0 · 1·0 + Fmax · calcPassiveForceMultiplier(1·0)` within
`Fmax · 10⁻⁵`. -/
theorem isometric_fiber_force (Fmax damping scale e0 : ℝ) (hF : 0 ≤ Fmax) (hs : 0 < scale) :
    (calcFiberForce Fmax damping 1 (calcActiveForceLengthMultiplier scale 1)
        (calcForceVelocityMultiplier 0) (calcPassiveForceMultiplier false e0 1)
        0).nonConPassiveFiberForce = 0 ∧
      (calcFiberForce Fmax damping 1 (calcActiveForceLengthMultiplier scale 1)
          (calcForceVelocityMultiplier 0) (calcPassiveForceMultiplier false e0 1)
          0).totalFiberForce =
        Fmax * (1 * calcActiveForceLengthMultiplier scale 1 * calcForceVelocityMultiplier 0) +
          Fmax * calcPassiveForceMultiplier false e0 1 ∧
      |(calcFiberForce Fmax damping 1 (calcActiveForceLengthMultiplier scale 1)
            (calcForceVelocityMultiplier 0) (calcPassiveForceMultiplier false e0 1)
            0).totalFiberForce -
          (Fmax * 1.0 * 1.0 + Fmax * calcPassiveForceMultiplier false e0 1)| ≤
        Fmax * (1 / 10 ^ 5) := by
  refine ⟨by simp [calcFiberForce], by simp [calcFiberForce], ?_⟩
  have hafl := calcAFL_one_close scale
  have hfv := calcFV_zero_close
  rw [abs_le] at hafl hfv
  have key : |calcActiveForceLengthMultiplier scale 1 * calcForceVelocityMultiplier 0 - 1| ≤
      1 / 10 ^ 5 := by
    rw [abs_le]
    constructor <;> nlinarith [hafl.1, hafl.2, hfv.1, hfv.2]
  have h2 : |(calcFiberForce Fmax damping 1 (calcActiveForceLengthMultiplier scale 1)
        (calcForceVelocityMultiplier 0) (calcPassiveForceMultiplier false e0 1)
        0).totalFiberForce -
      (Fmax * 1.0 * 1.0 + Fmax * calcPassiveForceMultiplier false e0 1)| =
      |Fmax * (calcActiveForceLengthMultiplier scale 1 * calcForceVelocityMultiplier 0 - 1)| := by
    apply congrArg abs
    simp only [calcFiberForce]
    ring
  rw [h2, abs_mul, abs_of_nonneg hF]
  exact mul_le_mul_of_nonneg_left key hF

/-- Witness for C8 at `Fmax = 100`, `damping = 0.1`, `scale = 1`, `e0 = 0.6`. -/
theorem isometric_fiber_force_witness :
    ((0 : ℝ) ≤ 100 ∧ (0 : ℝ) < 1) ∧
      ((calcFiberForce 100 0.1 1 (calcActiveForceLengthMultiplier 1 1)
          (calcForceVelocityMultiplier 0) (calcPassiveForceMultiplier false 0.6 1)
          0).nonConPassiveFiberForce = 0 ∧
        (calcFiberForce 100 0.1 1 (calcActiveForceLengthMultiplier 1 1)
            (calcForceVelocityMultiplier 0) (calcPassiveForceMultiplier false 0.6 1)
            0).totalFiberForce =
          100 * (1 * calcActiveForceLengthMultiplier 1 1 * calcForceVelocityMultiplier 0) +
            100 * calcPassiveForceMultiplier false 0.6 1 ∧
        |(calcFiberForce 100 0.1 1 (calcActiveForceLengthMultiplier 1 1)
              (calcForceVelocityMultiplier 0) (calcPassiveForceMultiplier false 0.6 1)
              0).totalFiberForce -
            (100 * 1.0 * 1.0 + 100 * calcPassiveForceMultiplier false 0.6 1)| ≤
          100 * (1 / 10 ^ 5)) :=
  ⟨⟨by norm_num, by norm_num⟩,
    isometric_fiber_force 100 0.1 1 0.6 (by norm_num) (by norm_num)⟩

end DeGrooteFregly2016Muscle
